import Mathlib

/-!
Verification of the passport-yandex-token strategy (src/src/index.js, with the
legacy build in src/lib/Strategy.js) against its natural-language specification.

The development shallowly embeds the strategy: request containers are explicit
association lists, the JavaScript truthiness conventions are modelled on
`Option String` and on a small JSON value type, the `oauth2.get` collaborator is
an explicit result record, and the three passport completion callbacks
(`success`, `fail`, `error`) become a sum type `Outcome`.  `authenticate`
returns the list of terminal callback invocations it performs (one list element
per `return this.xxx(...)` site in the source), so single-shot completion is a
provable statement rather than an artefact of the encoding.
-/

/-- JSON values as produced by JavaScript JSON.parse: null, booleans, numbers
(kept as their raw numeral text, which is all the strategy ever needs), strings,
arrays and objects (member lists in textual order). -/
inductive Json where
  | null
  | bool (b : Bool)
  | num (raw : String)
  | str (s : String)
  | arr (elems : List Json)
  | obj (members : List (String × Json))

/-- Whitespace accepted between JSON tokens. -/
def isJsonWs (c : Char) : Bool :=
  c = ' ' || c = '\t' || c = '\n' || c = '\r'

/-- Drop leading JSON whitespace. -/
def skipWs (cs : List Char) : List Char :=
  cs.dropWhile isJsonWs

/-- Decode a single-character JSON escape sequence.  The model supports the
common escapes; the exotic ones (unicode escapes) are outside the inputs this
development evaluates and make the model parser reject. -/
def decodeEscape (c : Char) : Option Char :=
  if c = '"' then some '"'
  else if c = '\\' then some '\\'
  else if c = '/' then some '/'
  else if c = 'n' then some '\n'
  else if c = 't' then some '\t'
  else if c = 'r' then some '\r'
  else if c = 'b' then some (Char.ofNat 8)
  else if c = 'f' then some (Char.ofNat 12)
  else none

/-- Parse the body of a JSON string literal (the opening quote already
consumed), fuelled so that every recursion is structural and kernel-reducible.
Returns the decoded string and the remaining input. -/
def parseStringBody (fuel : Nat) (acc : List Char) (cs : List Char) :
    Except String (String × List Char) :=
  match fuel with
  | 0 => .error "JSON model: out of fuel"
  | f + 1 =>
    match cs with
    | [] => .error "Unterminated string in JSON"
    | c :: rest =>
      if c = '"' then .ok (String.mk acc.reverse, rest)
      else if c = '\\' then
        match rest with
        | [] => .error "Unterminated string in JSON"
        | e :: rest2 =>
          match decodeEscape e with
          | some d => parseStringBody f (d :: acc) rest2
          | none => .error "Unsupported escape in JSON"
      else parseStringBody f (c :: acc) rest

/-- Characters that may occur in a JSON numeral token. -/
def isNumChar (c : Char) : Bool :=
  c.isDigit || c = '-' || c = '+' || c = '.' || c = 'e' || c = 'E'

/-- Scan a JSON numeral token greedily; it must contain at least one digit. -/
def parseNumberTok (cs : List Char) : Except String (String × List Char) :=
  let tok := cs.takeWhile isNumChar
  if tok.any Char.isDigit then .ok (String.mk tok, cs.dropWhile isNumChar)
  else .error "Unexpected token in JSON"

/-- Strip a literal keyword (true, false, null) from the input if present. -/
def stripKeyword (kw : List Char) (cs : List Char) : Option (List Char) :=
  if cs.take kw.length = kw then some (cs.drop kw.length) else none

mutual

/-- Parse one JSON value from the input, returning it with the remaining
input.  Fuel bounds the recursion depth so the function is structural. -/
def parseVal (fuel : Nat) (cs : List Char) : Except String (Json × List Char) :=
  match fuel with
  | 0 => .error "JSON model: out of fuel"
  | f + 1 =>
    match skipWs cs with
    | [] => .error "Unexpected end of JSON input"
    | c :: rest =>
      if c = '"' then
        match parseStringBody (rest.length + 1) [] rest with
        | .ok (s, rem) => .ok (.str s, rem)
        | .error e => .error e
      else if c = '{' then parseObjItems f (skipWs rest) []
      else if c = '[' then parseArrItems f (skipWs rest) []
      else if c = 't' then
        match stripKeyword ['t', 'r', 'u', 'e'] (c :: rest) with
        | some rem => .ok (.bool true, rem)
        | none => .error "Unexpected token in JSON"
      else if c = 'f' then
        match stripKeyword ['f', 'a', 'l', 's', 'e'] (c :: rest) with
        | some rem => .ok (.bool false, rem)
        | none => .error "Unexpected token in JSON"
      else if c = 'n' then
        match stripKeyword ['n', 'u', 'l', 'l'] (c :: rest) with
        | some rem => .ok (.null, rem)
        | none => .error "Unexpected token in JSON"
      else
        match parseNumberTok (c :: rest) with
        | .ok (tok, rem) => .ok (.num tok, rem)
        | .error e => .error e

/-- Parse the members of a JSON object, the opening brace and leading
whitespace already consumed; accumulates members in reverse. -/
def parseObjItems (fuel : Nat) (cs : List Char) (acc : List (String × Json)) :
    Except String (Json × List Char) :=
  match fuel with
  | 0 => .error "JSON model: out of fuel"
  | f + 1 =>
    match cs with
    | '}' :: rest =>
      if acc.isEmpty then .ok (.obj [], rest)
      else .error "Unexpected token in JSON"
    | '"' :: rest =>
      match parseStringBody (rest.length + 1) [] rest with
      | .error e => .error e
      | .ok (key, rem) =>
        match skipWs rem with
        | ':' :: rem2 =>
          match parseVal f rem2 with
          | .error e => .error e
          | .ok (v, rem3) =>
            match skipWs rem3 with
            | ',' :: rem4 => parseObjItems f (skipWs rem4) ((key, v) :: acc)
            | '}' :: rem4 => .ok (.obj ((key, v) :: acc).reverse, rem4)
            | _ => .error "Expected comma or closing brace in JSON"
        | _ => .error "Expected colon in JSON"
    | _ => .error "Expected string key in JSON"

/-- Parse the elements of a JSON array, the opening bracket and leading
whitespace already consumed; accumulates elements in reverse. -/
def parseArrItems (fuel : Nat) (cs : List Char) (acc : List Json) :
    Except String (Json × List Char) :=
  match fuel with
  | 0 => .error "JSON model: out of fuel"
  | f + 1 =>
    match cs with
    | ']' :: rest =>
      if acc.isEmpty then .ok (.arr [], rest)
      else .error "Unexpected token in JSON"
    | _ =>
      match parseVal f cs with
      | .error e => .error e
      | .ok (v, rem) =>
        match skipWs rem with
        | ',' :: rem2 => parseArrItems f (skipWs rem2) (v :: acc)
        | ']' :: rem2 => .ok (.arr (v :: acc).reverse, rem2)
        | _ => .error "Expected comma or closing bracket in JSON"

end

/-- The model of JavaScript JSON.parse: parse one value and require that only
whitespace follows.  An `Except.error` result models the thrown SyntaxError. -/
def parseJSON (s : String) : Except String Json :=
  match parseVal (s.length + 1) s.toList with
  | .error e => .error e
  | .ok (j, rem) =>
    if (skipWs rem).isEmpty then .ok j
    else .error "Unexpected non-whitespace character after JSON"

/-- A JSON numeral denotes zero exactly when its mantissa (the part before any
exponent marker) contains no nonzero digit. -/
def jsonNumIsZero (raw : String) : Bool :=
  (raw.toList.takeWhile (fun c => !(c = 'e' || c = 'E'))).all
    (fun c => !('1' ≤ c && c ≤ '9'))

/-- JavaScript truthiness of a parsed JSON value: null, false, numeric zero and
the empty string are falsy; every other value (all arrays, all objects) is
truthy. -/
def jsTruthy : Json → Bool
  | .null => false
  | .bool b => b
  | .num raw => !(jsonNumIsZero raw)
  | .str s => s != ""
  | .arr _ => true
  | .obj _ => true

/-- Property lookup on a parsed JSON object in JavaScript: with duplicate keys
JSON.parse keeps the last occurrence, so the lookup is last-match. -/
def jsObjLookup (kvs : List (String × Json)) (k : String) : Option Json :=
  kvs.foldl (fun acc kv => if kv.1 = k then some kv.2 else acc) none

/-- The native JavaScript errors the normalization try-block can throw besides
a JSON SyntaxError: a TypeError from a property access on null or from calling
split on a truthy non-string value.  `typeError` records the offending field. -/
inductive JsAccessError where
  | typeError (field : String)

/-- Reading property `k` of a parsed JSON value in JavaScript: on null the
access throws a TypeError; on an object it looks the member up (`none` models
the JavaScript undefined); on any other value it yields undefined. -/
def jsMember (j : Json) (k : String) : Except JsAccessError (Option Json) :=
  match j with
  | .null => .error (JsAccessError.typeError k)
  | .obj kvs => .ok (jsObjLookup kvs k)
  | _ => .ok none

/-- JavaScript `s.split(' ')` over the character list: split on every space,
keeping empty segments. -/
def splitOnSpaceAux (acc : List Char) : List Char → List String
  | [] => [String.mk acc.reverse]
  | c :: rest =>
    if c = ' ' then String.mk acc.reverse :: splitOnSpaceAux [] rest
    else splitOnSpaceAux (c :: acc) rest

/-- JavaScript `s.split(' ', limit)`: split on spaces and keep at most `limit`
leading segments. -/
def jsSplitSpace (s : String) (limit : Nat) : List String :=
  (splitOnSpaceAux [] s.toList).take limit

/-- The error object the oauth2.get collaborator may deliver; the strategy
only reads its statusCode property, which may itself be undefined. -/
structure TransportError where
  statusCode : Option Nat

/-- The outcome the oauth2.get collaborator delivers to its callback
`(error, body, res)`: an optional error object together with the raw body
string (which the strategy must not look at when the error is present). -/
structure OAuthGetResult where
  error : Option TransportError
  body : String

/-- Errors delivered by userProfile's done callback, separated by kind exactly
as a JavaScript caller can separate them by constructor/class:
an InternalOAuthError wrapping a transport failure (message plus the original
statusCode when available), the native SyntaxError from JSON.parse, or a native
TypeError escaping the normalization try-block. -/
inductive FetchError where
  | internalOAuth (message : String) (statusCode : Option Nat)
  | syntaxError (msg : String)
  | typeError (field : String)

/-- The name subrecord of the normalized profile.  familyName is always a
string (the source's ternary yields a string in both branches); givenName is
`split(' ', 2)[1]`, which is undefined (`none`) when the real name has no
second space-separated segment, and the empty string in the falsy branch. -/
structure ProfileName where
  familyName : String
  givenName : Option String

/-- One entry of the emails list: `value` is the raw default_email member and
may be undefined. -/
structure EmailEntry where
  value : Option Json

/-- The normalized profile record built by userProfile.  `id` and
`displayName` are the raw JSON members and are undefined (`none`) when the
parsed document lacks them. -/
structure Profile where
  provider : String
  id : Option Json
  displayName : Option Json
  name : ProfileName
  emails : List EmailEntry
  photos : List Json
  _raw : String
  _json : Json

/-- The name computation of userProfile (src/src/index.js lines 95-98):
both parts come from the ternary on json.real_name; a truthy real_name is
split on spaces with limit 2 (a truthy non-string makes the split call throw a
TypeError); a falsy or absent real_name yields empty strings for both parts. -/
def mkProfileName (realName : Option Json) : Except JsAccessError ProfileName :=
  match realName with
  | some j =>
    if jsTruthy j then
      match j with
      | .str s =>
        .ok { familyName := (jsSplitSpace s 2).headD ""
              givenName := (jsSplitSpace s 2).get? 1 }
      | _ => .error (JsAccessError.typeError "real_name")
    else .ok { familyName := "", givenName := some "" }
  | none => .ok { familyName := "", givenName := some "" }

/-- The body of userProfile's try-block after JSON.parse succeeded: evaluate
the object literal field by field in source order; any member access on a null
document (or split on a truthy non-string real_name) throws and is caught,
surfacing as the corresponding native error. -/
def buildProfile (body : String) (json : Json) : Except JsAccessError Profile :=
  match jsMember json "id" with
  | .error e => .error e
  | .ok idv =>
    match jsMember json "display_name" with
    | .error e => .error e
    | .ok displayNamev =>
      match jsMember json "real_name" with
      | .error e => .error e
      | .ok realNamev =>
        match mkProfileName realNamev with
        | .error e => .error e
        | .ok namev =>
          match jsMember json "default_email" with
          | .error e => .error e
          | .ok defaultEmailv =>
            .ok { provider := "yandex"
                  id := idv
                  displayName := displayNamev
                  name := namev
                  emails := [{ value := defaultEmailv }]
                  photos := []
                  _raw := body
                  _json := json }

/-- userProfile (src/src/index.js lines 85-110), as a function of the outcome
delivered by this._oauth2.get: a transport error is wrapped into an
InternalOAuthError with the fixed message and the original statusCode, without
touching the body; otherwise the body is parsed as JSON and normalized, parse
failures surfacing as the unwrapped native SyntaxError and try-block TypeErrors
as the unwrapped native TypeError. -/
def userProfile (r : OAuthGetResult) : Except FetchError Profile :=
  match r.error with
  | some e => .error (.internalOAuth "Failed to fetch user profile" e.statusCode)
  | none =>
    match parseJSON r.body with
    | .error msg => .error (.syntaxError msg)
    | .ok json =>
      match buildProfile r.body json with
      | .error (JsAccessError.typeError f) => .error (.typeError f)
      | .ok p => .ok p

/-- The documented well-formed profile body used throughout the spec. -/
def c4Body : String :=
  "\x7b\"id\":\"00000000\",\"display_name\":\"ghaiklor\",\"real_name\":\"Eugene Obrezkov\",\"default_email\":\"ghaiklor@gmail.com\"\x7d"

/-- The parsed form of c4Body. -/
def c4Json : Json :=
  .obj [("id", .str "00000000"), ("display_name", .str "ghaiklor"),
        ("real_name", .str "Eugene Obrezkov"),
        ("default_email", .str "ghaiklor@gmail.com")]

/-- The inbound request shape the strategy reads: optional body and query
containers, each a string-keyed map of string values (`none` models an absent
container, JavaScript undefined). -/
structure Req where
  body : Option (List (String × String))
  query : Option (List (String × String))

/-- JavaScript truthiness of a token candidate: undefined and the empty string
are falsy, any other string is truthy. -/
def truthyStr (o : Option String) : Bool :=
  match o with
  | none => false
  | some s => s != ""

/-- JavaScript logical-or over token candidates: the first operand when it is
truthy, the second operand (whatever it is) otherwise. -/
def jsOr (a b : Option String) : Option String :=
  if truthyStr a then a else b

/-- The value of container[field] guarded by the container's existence, as in
the source's `req.body && req.body[field]`. -/
def lookupField (container : Option (List (String × String))) (field : String) :
    Option String :=
  match container with
  | none => none
  | some kvs => kvs.lookup field

/-- Token extraction (src/src/index.js lines 57-58):
`(req.body && req.body[field]) || (req.query && req.query[field])`. -/
def extractToken (req : Req) (field : String) : Option String :=
  jsOr (lookupField req.body field) (lookupField req.query field)

/-- Constructor options of the strategy; `none` models an omitted option. -/
structure Options where
  accessTokenField : Option String := none
  refreshTokenField : Option String := none
  profileURL : Option String := none
  authorizationURL : Option String := none
  tokenURL : Option String := none
  passReqToCallback : Bool := false

/-- JavaScript `v || d` for a string option: the default replaces both an
omitted and an empty-string value. -/
def jsOrDefault (v : Option String) (d : String) : String :=
  match v with
  | none => d
  | some s => if s = "" then d else s

/-- The configuration the constructor stores on the strategy instance. -/
structure Config where
  accessTokenField : String
  refreshTokenField : String
  profileURL : String
  authorizationURL : String
  tokenURL : String
  passReqToCallback : Bool

/-- The defaulting performed by the constructor (src/src/index.js lines
36-46). -/
def mkConfig (o : Options) : Config :=
  { accessTokenField := jsOrDefault o.accessTokenField "access_token"
    refreshTokenField := jsOrDefault o.refreshTokenField "refresh_token"
    profileURL := jsOrDefault o.profileURL "https://login.yandex.ru/info?format=json"
    authorizationURL := jsOrDefault o.authorizationURL "https://oauth.yandex.ru/authorize"
    tokenURL := jsOrDefault o.tokenURL "https://oauth.yandex.ru/token"
    passReqToCallback := o.passReqToCallback }

/-- The info value passed to the adapter's fail callback: either the
message record the adapter itself constructs for a missing token, or the
(possibly undefined) info value supplied by the verification callback. -/
inductive FailInfo (I : Type) where
  | withMessage (message : String)
  | withInfo (info : Option I)

/-- A terminal completion callback invocation of the passport adapter:
success(user, info), fail(info) or error(cause). -/
inductive Outcome (U I E : Type) where
  | success (user : U) (info : Option I)
  | fail (info : FailInfo I)
  | error (e : E)

/-- The arguments the verification function's done callback receives:
`(error, user, info)`, each possibly undefined; a falsy user is modelled as
`none`. -/
structure DoneResult (U I VE : Type) where
  error : Option VE
  user : Option U
  info : Option I

/-- The argument list authenticate passes to the caller-supplied verification
function: with the original request object as first argument when
passReqToCallback is configured, without it otherwise. -/
inductive VerifyCall (P : Type) where
  | withReq (req : Req) (accessToken : String) (refreshToken : Option String)
      (profile : P)
  | withoutReq (accessToken : String) (refreshToken : Option String)
      (profile : P)

/-- The verified callback built inside authenticate (src/src/index.js lines
65-70): an error routes to the adapter's error channel, a falsy user to fail
with the supplied info, anything else to success. -/
def verified {U I VE : Type} (d : DoneResult U I VE) :
    Outcome U I (FetchError ⊕ VE) :=
  match d.error with
  | some e => Outcome.error (Sum.inr e)
  | none =>
    match d.user with
    | none => Outcome.fail (FailInfo.withInfo d.info)
    | some u => Outcome.success u d.info

/-- authenticate (src/src/index.js lines 56-78), returning the list of
terminal callback invocations it performs, in order; each `return this.xxx`
site of the source contributes one singleton literal.  The profile fetch
(this._loadUserProfile) and the verification function are explicit
parameters; the verification function returning a single DoneResult encodes
the precondition that it invokes its done callback exactly once. -/
def authenticate {P U I VE : Type} (cfg : Config) (req : Req)
    (loadUserProfile : String → Except FetchError P)
    (verify : VerifyCall P → DoneResult U I VE) :
    List (Outcome U I (FetchError ⊕ VE)) :=
  let refreshToken := extractToken req cfg.refreshTokenField
  match extractToken req cfg.accessTokenField with
  | none =>
    [Outcome.fail (FailInfo.withMessage ("You should provide " ++ cfg.accessTokenField))]
  | some tok =>
    if tok = "" then
      [Outcome.fail (FailInfo.withMessage ("You should provide " ++ cfg.accessTokenField))]
    else
      match loadUserProfile tok with
      | .error e => [Outcome.error (Sum.inl e)]
      | .ok profile =>
        if cfg.passReqToCallback then
          [verified (verify (VerifyCall.withReq req tok refreshToken profile))]
        else
          [verified (verify (VerifyCall.withoutReq tok refreshToken profile))]

/-- Splitting a space-free character list yields the single whole segment. -/
theorem splitOnSpaceAux_no_space (l : List Char) (acc : List Char)
    (h : ∀ c ∈ l, c ≠ ' ') :
    splitOnSpaceAux acc l = [String.mk (acc.reverse ++ l)] := by
  induction l generalizing acc with
  | nil => simp [splitOnSpaceAux]
  | cons c rest ih =>
    have hc : c ≠ ' ' := h c (List.mem_cons_self c rest)
    have hrest : ∀ x ∈ rest, x ≠ ' ' := fun x hx => h x (List.mem_cons_of_mem c hx)
    rw [splitOnSpaceAux, if_neg hc, ih (c :: acc) hrest]
    simp

/-- C1: for every invocation of authenticate, exactly one of the three
terminal completion callbacks (success, fail, error) fires and none fires more
than once — the invocation trace is a one-element list — under the
precondition, encoded in the type of the verification function, that the
caller-supplied verification function invokes its done callback exactly
once. -/
theorem authenticate_single_completion {P U I VE : Type} (cfg : Config)
    (req : Req) (load : String → Except FetchError P)
    (verify : VerifyCall P → DoneResult U I VE) :
    ∃ o, authenticate cfg req load verify = [o] := by
  rcases hx : extractToken req cfg.accessTokenField with _ | tok
  · exact ⟨Outcome.fail
      (FailInfo.withMessage ("You should provide " ++ cfg.accessTokenField)),
      by simp [authenticate, hx]⟩
  · by_cases ht : tok = ""
    · exact ⟨Outcome.fail
        (FailInfo.withMessage ("You should provide " ++ cfg.accessTokenField)),
        by simp [authenticate, hx, ht]⟩
    · rcases hl : load tok with e | p
      · exact ⟨Outcome.error (Sum.inl e), by simp [authenticate, hx, ht, hl]⟩
      · by_cases hpr : cfg.passReqToCallback
        · exact ⟨verified (verify (VerifyCall.withReq req tok
            (extractToken req cfg.refreshTokenField) p)),
            by simp [authenticate, hx, ht, hl, hpr]⟩
        · exact ⟨verified (verify (VerifyCall.withoutReq tok
            (extractToken req cfg.refreshTokenField) p)),
            by simp [authenticate, hx, ht, hl, hpr]⟩

/-- C2: when neither the body container nor the query container holds a
non-empty value under the configured access-token field name, authenticate
fails with the message built from the configured field name, whatever profile
loader and verification function are supplied — in particular the profile
fetch is never consulted. -/
theorem authenticate_missing_token_fails {P U I VE : Type} (cfg : Config)
    (req : Req)
    (hb : lookupField req.body cfg.accessTokenField = none ∨
      lookupField req.body cfg.accessTokenField = some "")
    (hq : lookupField req.query cfg.accessTokenField = none ∨
      lookupField req.query cfg.accessTokenField = some "") :
    ∀ (load : String → Except FetchError P)
      (verify : VerifyCall P → DoneResult U I VE),
      authenticate cfg req load verify =
        [Outcome.fail
          (FailInfo.withMessage ("You should provide " ++ cfg.accessTokenField))] := by
  intro load verify
  have hext : extractToken req cfg.accessTokenField = none ∨
      extractToken req cfg.accessTokenField = some "" := by
    unfold extractToken jsOr
    rcases hb with hb | hb <;> rcases hq with hq | hq <;>
      simp [hb, hq, truthyStr]
  rcases hext with h | h <;> simp [authenticate, h]

/-- C3: the verified callback routes each outcome delivered by the
verification function's done callback to exactly the matching adapter
channel: a present error to error, an absent error with a falsy user to fail
with the supplied info, and otherwise to success with user and info passed
through unchanged. -/
theorem verified_routes_outcomes {U I VE : Type} (d : DoneResult U I VE) :
    (∀ e, d.error = some e → verified d = Outcome.error (Sum.inr e)) ∧
    (d.error = none → d.user = none →
      verified d = Outcome.fail (FailInfo.withInfo d.info)) ∧
    (∀ u, d.error = none → d.user = some u →
      verified d = Outcome.success u d.info) := by
  refine ⟨?_, ?_, ?_⟩ <;> intros <;> simp [verified, *]

/-- Concrete instance of verified_routes_outcomes on each of the three
routes. -/
theorem verified_routes_outcomes_witness :
    verified ({ error := none, user := some 1, info := some 2 } :
        DoneResult Nat Nat Nat) = Outcome.success 1 (some 2) ∧
    verified ({ error := none, user := none, info := some 2 } :
        DoneResult Nat Nat Nat) = Outcome.fail (FailInfo.withInfo (some 2)) ∧
    verified ({ error := some 7, user := some 1, info := none } :
        DoneResult Nat Nat Nat) = Outcome.error (Sum.inr 7) :=
  ⟨(verified_routes_outcomes { error := none, user := some 1, info := some 2 }).2.2
      1 rfl rfl,
   (verified_routes_outcomes { error := none, user := none, info := some 2 }).2.1
      rfl rfl,
   (verified_routes_outcomes { error := some 7, user := some 1, info := none }).1
      7 rfl⟩

/-- The default configuration: no option supplied. -/
def cfgDefault : Config := mkConfig {}

/-- A request carrying no containers at all. -/
def reqEmpty : Req := { body := none, query := none }

/-- A trivial profile loader used to instantiate witnesses. -/
def loadUnit : String → Except FetchError Unit := fun _ => .ok ()

/-- A trivial verification function used to instantiate witnesses. -/
def verifyUnit : VerifyCall Unit → DoneResult Unit Unit Unit :=
  fun _ => { error := none, user := some (), info := none }

/-- Concrete instance of authenticate_missing_token_fails: a request with no
containers under the default configuration fails with the documented
message. -/
theorem authenticate_missing_token_fails_witness :
    authenticate cfgDefault reqEmpty loadUnit verifyUnit =
      [Outcome.fail (FailInfo.withMessage "You should provide access_token")] :=
  authenticate_missing_token_fails cfgDefault reqEmpty (Or.inl rfl) (Or.inl rfl)
    loadUnit verifyUnit

/-- The profile the source normalizes the documented well-formed body to. -/
def c4Profile : Profile :=
  { provider := "yandex"
    id := some (.str "00000000")
    displayName := some (.str "ghaiklor")
    name := { familyName := "Eugene", givenName := some "Obrezkov" }
    emails := [{ value := some (.str "ghaiklor@gmail.com") }]
    photos := []
    _raw := c4Body
    _json := c4Json }

/-- C4 counterexample: on the documented well-formed body normalization
succeeds with provider equal to the literal yandex, not the spec text
yandex-equivalent. -/
theorem userProfile_wellformed_provider_counterexample :
    userProfile { error := none, body := c4Body } = .ok c4Profile ∧
    c4Profile.provider = "yandex" ∧ c4Profile.provider ≠ "yandex-equivalent" :=
  ⟨rfl, rfl, by decide⟩

/-- C4 as amended: on the documented well-formed JSON body, normalization
succeeds and yields provider yandex, id 00000000, displayName ghaiklor,
name.familyName Eugene, name.givenName Obrezkov, and a single-element email
list carrying ghaiklor at gmail dot com. -/
theorem userProfile_wellformed_normalization :
    userProfile { error := none, body := c4Body } =
      .ok { provider := "yandex"
            id := some (.str "00000000")
            displayName := some (.str "ghaiklor")
            name := { familyName := "Eugene", givenName := some "Obrezkov" }
            emails := [{ value := some (.str "ghaiklor@gmail.com") }]
            photos := []
            _raw := c4Body
            _json := c4Json } := rfl

/-- C5: when the oauth2.get collaborator signals a transport error,
userProfile ignores the body entirely (the wrapped result is the same for
every body string), wraps the failure with the fixed message and the original
statusCode, and authenticate routes that wrapped error to the error
channel. -/
theorem userProfile_transport_error_wrapped {U I VE : Type} (cfg : Config)
    (req : Req) (verify : VerifyCall Profile → DoneResult U I VE)
    (oget : String → OAuthGetResult) (tok : String) (e : TransportError)
    (hx : extractToken req cfg.accessTokenField = some tok) (hne : tok ≠ "")
    (he : (oget tok).error = some e) :
    (∀ b : String, userProfile { error := some e, body := b } =
      .error (.internalOAuth "Failed to fetch user profile" e.statusCode)) ∧
    userProfile (oget tok) =
      .error (.internalOAuth "Failed to fetch user profile" e.statusCode) ∧
    authenticate cfg req (fun t => userProfile (oget t)) verify =
      [Outcome.error (Sum.inl
        (.internalOAuth "Failed to fetch user profile" e.statusCode))] := by
  have hup : userProfile (oget tok) =
      .error (.internalOAuth "Failed to fetch user profile" e.statusCode) := by
    simp [userProfile, he]
  refine ⟨fun b => by simp [userProfile], hup, ?_⟩
  simp [authenticate, hx, hne, hup]

/-- A collaborator that always fails with HTTP status 500. -/
def ogetStatus500 : String → OAuthGetResult :=
  fun _ => { error := some { statusCode := some 500 }, body := "ignored" }

/-- A request holding the access token in its body container. -/
def reqBodyToken : Req :=
  { body := some [("access_token", "token123")], query := none }

/-- A trivial verification function over full profiles. -/
def verifyProfile : VerifyCall Profile → DoneResult Unit Unit Unit :=
  fun _ => { error := none, user := some (), info := none }

/-- Concrete instance of userProfile_transport_error_wrapped: a 500 transport
failure is wrapped and routed to the error channel. -/
theorem userProfile_transport_error_wrapped_witness :
    authenticate cfgDefault reqBodyToken (fun t => userProfile (ogetStatus500 t))
        verifyProfile =
      [Outcome.error (Sum.inl
        (.internalOAuth "Failed to fetch user profile" (some 500)))] :=
  (userProfile_transport_error_wrapped cfgDefault reqBodyToken verifyProfile
    ogetStatus500 "token123" { statusCode := some 500 } rfl (by decide) rfl).2.2

/-- C6: when the collaborator succeeds but the body is not valid JSON,
userProfile delivers the native parse error unwrapped — by constructor it is
distinguishable from the wrapped transport error — no profile is produced,
and authenticate routes it to the error channel. -/
theorem userProfile_parse_error_unwrapped {U I VE : Type} (cfg : Config)
    (req : Req) (verify : VerifyCall Profile → DoneResult U I VE)
    (oget : String → OAuthGetResult) (tok : String) (msg : String)
    (hx : extractToken req cfg.accessTokenField = some tok) (hne : tok ≠ "")
    (he : (oget tok).error = none)
    (hp : parseJSON (oget tok).body = .error msg) :
    userProfile (oget tok) = .error (.syntaxError msg) ∧
    (∀ m c, FetchError.syntaxError msg ≠ FetchError.internalOAuth m c) ∧
    authenticate cfg req (fun t => userProfile (oget t)) verify =
      [Outcome.error (Sum.inl (.syntaxError msg))] := by
  have hup : userProfile (oget tok) = .error (.syntaxError msg) := by
    simp [userProfile, he, hp]
  refine ⟨hup, ?_, ?_⟩
  · intro m c h
    cases h
  · simp [authenticate, hx, hne, hup]

/-- A collaborator that succeeds with a body that is not valid JSON. -/
def ogetNotJson : String → OAuthGetResult :=
  fun _ => { error := none, body := "not a JSON" }

/-- Concrete instance of userProfile_parse_error_unwrapped on the body
"not a JSON". -/
theorem userProfile_parse_error_unwrapped_witness :
    authenticate cfgDefault reqBodyToken (fun t => userProfile (ogetNotJson t))
        verifyProfile =
      [Outcome.error (Sum.inl (.syntaxError "Unexpected token in JSON"))] :=
  (userProfile_parse_error_unwrapped cfgDefault reqBodyToken verifyProfile
    ogetNotJson "token123" "Unexpected token in JSON" rfl (by decide) rfl rfl).2.2

/-- C7: token extraction prefers a present, non-empty body value under the
configured field name regardless of what the query container holds, and falls
back to the query value exactly when the body value is absent or empty; the
statement is for an arbitrary field name, so it covers the access token and
the refresh token independently. -/
theorem extractToken_body_precedence (req : Req) (field : String) :
    (∀ v, lookupField req.body field = some v → v ≠ "" →
      extractToken req field = some v) ∧
    (lookupField req.body field = none ∨ lookupField req.body field = some "" →
      extractToken req field = lookupField req.query field) := by
  constructor
  · intro v hv hne
    simp [extractToken, jsOr, truthyStr, hv, hne]
  · rintro (h | h) <;> simp [extractToken, jsOr, truthyStr, h]

/-- A request whose body and query both hold a value under access_token. -/
def reqBothTokens : Req :=
  { body := some [("access_token", "fromBody")]
    query := some [("access_token", "fromQuery")] }

/-- A request whose body holds an empty token value while the query holds a
non-empty one. -/
def reqEmptyBodyToken : Req :=
  { body := some [("access_token", "")]
    query := some [("access_token", "fromQuery")] }

/-- Concrete instance of extractToken_body_precedence: with different values
in body and query, the body value wins; with an empty body value, the query
value is returned. -/
theorem extractToken_body_precedence_witness :
    extractToken reqBothTokens "access_token" = some "fromBody" ∧
    extractToken reqEmptyBodyToken "access_token" = some "fromQuery" :=
  ⟨(extractToken_body_precedence reqBothTokens "access_token").1 "fromBody"
      rfl (by decide),
   (extractToken_body_precedence reqEmptyBodyToken "access_token").2
      (Or.inr rfl)⟩

/-- C8: when the authentication attempt reaches the verification step, the
verification function receives the original request object as its first
argument exactly when passReqToCallback is configured, and the plain
(accessToken, refreshToken, profile) argument list otherwise. -/
theorem authenticate_passReqToCallback_shape {P U I VE : Type} (cfg : Config)
    (req : Req) (load : String → Except FetchError P)
    (verify : VerifyCall P → DoneResult U I VE) (tok : String) (profile : P)
    (hx : extractToken req cfg.accessTokenField = some tok) (hne : tok ≠ "")
    (hload : load tok = .ok profile) :
    (cfg.passReqToCallback = true →
      authenticate cfg req load verify =
        [verified (verify (VerifyCall.withReq req tok
          (extractToken req cfg.refreshTokenField) profile))]) ∧
    (cfg.passReqToCallback = false →
      authenticate cfg req load verify =
        [verified (verify (VerifyCall.withoutReq tok
          (extractToken req cfg.refreshTokenField) profile))]) := by
  constructor <;> intro hpr <;> simp [authenticate, hx, hne, hload, hpr]

/-- The configuration with passReqToCallback enabled. -/
def cfgPassReq : Config := mkConfig { passReqToCallback := true }

/-- A profile loader delivering a fixed numeric profile. -/
def loadFive : String → Except FetchError Nat := fun _ => .ok 5

/-- A verification function echoing the received profile as the user. -/
def verifyEcho : VerifyCall Nat → DoneResult Nat Nat Nat := fun c =>
  match c with
  | .withReq _ _ _ p => { error := none, user := some p, info := none }
  | .withoutReq _ _ p => { error := none, user := some p, info := none }

/-- Concrete instance of authenticate_passReqToCallback_shape on both
configurations. -/
theorem authenticate_passReqToCallback_shape_witness :
    authenticate cfgPassReq reqBothTokens loadFive verifyEcho =
      [verified (verifyEcho (VerifyCall.withReq reqBothTokens "fromBody" none 5))] ∧
    authenticate cfgDefault reqBothTokens loadFive verifyEcho =
      [verified (verifyEcho (VerifyCall.withoutReq "fromBody" none 5))] :=
  ⟨(authenticate_passReqToCallback_shape cfgPassReq reqBothTokens loadFive
      verifyEcho "fromBody" 5 rfl (by decide) rfl).1 rfl,
   (authenticate_passReqToCallback_shape cfgDefault reqBothTokens loadFive
      verifyEcho "fromBody" 5 rfl (by decide) rfl).2 rfl⟩

/-- The profile the source produces for the well-formed but empty JSON
object body. -/
def emptyObjProfile : Profile :=
  { provider := "yandex"
    id := none
    displayName := none
    name := { familyName := "", givenName := some "" }
    emails := [{ value := none }]
    photos := []
    _raw := "\x7b\x7d"
    _json := .obj [] }

/-- C9 counterexample: on the well-formed body consisting of an empty JSON
object, normalization succeeds while the id field of the resulting profile is
undefined — a successful normalization does not guarantee a present id. -/
theorem userProfile_id_absent_counterexample :
    userProfile { error := none, body := "\x7b\x7d" } = .ok emptyObjProfile ∧
    emptyObjProfile.id = none :=
  ⟨rfl, rfl⟩

/-- If the object-literal evaluation succeeds, the profile carries the
constant provider. -/
theorem buildProfile_provider (body : String) (json : Json) (p : Profile)
    (h : buildProfile body json = .ok p) : p.provider = "yandex" := by
  unfold buildProfile at h
  rcases h1 : jsMember json "id" with e | idv <;> simp only [h1] at h
  · cases h
  · rcases h2 : jsMember json "display_name" with e | dv <;> simp only [h2] at h
    · cases h
    · rcases h3 : jsMember json "real_name" with e | rv <;> simp only [h3] at h
      · cases h
      · rcases h4 : mkProfileName rv with e | nv <;> simp only [h4] at h
        · cases h
        · rcases h5 : jsMember json "default_email" with e | dev <;>
            simp only [h5] at h
          · cases h
          · cases h
            rfl

/-- C9 as amended: the provider field is always present (the constant yandex)
when normalization succeeds, and a malformed body makes normalization fail
rather than produce a partial profile; the id field, however, is copied
verbatim from the parsed document and is undefined when the document lacks
it. -/
theorem userProfile_provider_invariant (r : OAuthGetResult) :
    (∀ p, userProfile r = .ok p → p.provider = "yandex") ∧
    (r.error = none → ∀ msg, parseJSON r.body = .error msg →
      ∀ p, userProfile r ≠ .ok p) := by
  constructor
  · intro p h
    rcases he : r.error with _ | e
    · rcases hp : parseJSON r.body with msg | json
      · have hv : userProfile r = .error (.syntaxError msg) := by
          simp [userProfile, he, hp]
        rw [hv] at h
        cases h
      · rcases hb : buildProfile r.body json with e2 | q
        · cases e2 with
          | typeError f =>
            have hv : userProfile r = .error (.typeError f) := by
              simp [userProfile, he, hp, hb]
            rw [hv] at h
            cases h
        · have hv : userProfile r = .ok q := by
            simp [userProfile, he, hp, hb]
          rw [hv] at h
          have hq : q = p := Except.ok.inj h
          rw [← hq]
          exact buildProfile_provider r.body json q hb
    · have hv : userProfile r =
          .error (.internalOAuth "Failed to fetch user profile" e.statusCode) := by
        simp [userProfile, he]
      rw [hv] at h
      cases h
  · intro he msg hp p h
    simp [userProfile, he, hp] at h

/-- Concrete instance of userProfile_provider_invariant: the profile built
from the empty-object body carries provider yandex, and the malformed body
"not a JSON" yields no profile at all. -/
theorem userProfile_provider_invariant_witness :
    emptyObjProfile.provider = "yandex" ∧
    userProfile { error := none, body := "not a JSON" } ≠ .ok emptyObjProfile :=
  ⟨(userProfile_provider_invariant { error := none, body := "\x7b\x7d" }).1
      emptyObjProfile rfl,
   (userProfile_provider_invariant { error := none, body := "not a JSON" }).2
      rfl "Unexpected token in JSON" rfl emptyObjProfile⟩

/-- C10 counterexample: a real_name member that is present but equal to the
empty string also makes both name parts the empty string — both parts being
empty therefore does not imply that the real_name field is absent. -/
theorem mkProfileName_empty_string_counterexample :
    mkProfileName (some (Json.str "")) =
      .ok { familyName := "", givenName := some "" } ∧
    some (Json.str "") ≠ (none : Option Json) :=
  ⟨rfl, by simp⟩

/-- C10 as amended: a non-empty real_name string containing no space becomes
the whole familyName with givenName undefined (not the empty string), and
both name parts are the empty string when the real_name field is absent or is
the empty string. -/
theorem mkProfileName_split_behavior :
    (∀ s : String, s ≠ "" → (∀ c ∈ s.toList, c ≠ ' ') →
      mkProfileName (some (Json.str s)) =
        .ok { familyName := s, givenName := none }) ∧
    mkProfileName none = .ok { familyName := "", givenName := some "" } ∧
    mkProfileName (some (Json.str "")) =
      .ok { familyName := "", givenName := some "" } := by
  refine ⟨?_, rfl, rfl⟩
  intro s hne hsp
  have hsplit : jsSplitSpace s 2 = [s] := by
    unfold jsSplitSpace
    rw [splitOnSpaceAux_no_space s.toList [] hsp]
    simp
  simp [mkProfileName, jsTruthy, hne, hsplit]

/-- Concrete instance of mkProfileName_split_behavior: a space-free
real_name becomes the familyName with givenName undefined. -/
theorem mkProfileName_split_behavior_witness :
    mkProfileName (some (Json.str "ghaiklor")) =
      .ok { familyName := "ghaiklor", givenName := none } :=
  mkProfileName_split_behavior.1 "ghaiklor" (by decide) (by decide)
